import Mathlib

set_option maxHeartbeats 1000000

/-!
Shallow embedding of the Tomato-Farm gateway (src/rasperrypi.py):
shared state, command dispatcher (send_command), automation policy
(auto_control), HTTP handlers (control, mode, detect) and the MQTT
ingest paths.  Machine state is modelled with explicit state passing;
MQTT connectivity and publish exceptions are explicit boolean inputs;
numeric sensor readings and timestamps are modelled as Int.
-/

/-- System modes: MODE_MANUAL / MODE_AUTO / MODE_HYBRID. -/
inductive Mode
  | manual
  | auto
  | hybrid
deriving DecidableEq

/-- The three actuators (keys of state.actuators / topic_map). -/
inductive Actuator
  | pump
  | fan
  | light
deriving DecidableEq

/-- An outbound actuator command: which actuator, and on (true) / off (false). -/
abbrev OutCmd := Actuator × Bool

/-- Automation threshold SOIL_MOISTURE_THRESHOLD = 30 (%). -/
def SOIL_MOISTURE_THRESHOLD : Int := 30

/-- Automation threshold TEMP_THRESHOLD = 30 (°C). -/
def TEMP_THRESHOLD : Int := 30

/-- Automation threshold LIGHT_THRESHOLD = 40 (%). -/
def LIGHT_THRESHOLD : Int := 40

/-- WATERING_COOLDOWN = 30 seconds between waterings. -/
def WATERING_COOLDOWN : Int := 30

/-- state.sensors: each reading optional (None until first report). -/
structure Sensors where
  temp : Option Int
  humidity : Option Int
  soil_temp : Option Int
  moisture : Option Int
  light : Option Int
  timestamp : Option Int
deriving DecidableEq

/-- A boolean per actuator: used for state.actuators and state.override. -/
structure ActMap where
  pump : Bool
  fan : Bool
  light : Bool
deriving DecidableEq

/-- Update one entry of an actuator map (state.actuators[a] = b). -/
def ActMap.set (m : ActMap) : Actuator → Bool → ActMap
  | Actuator.pump, b => { m with pump := b }
  | Actuator.fan, b => { m with fan := b }
  | Actuator.light, b => { m with light := b }

/-- Read one entry of an actuator map. -/
def ActMap.get (m : ActMap) : Actuator → Bool
  | Actuator.pump => m.pump
  | Actuator.fan => m.fan
  | Actuator.light => m.light

/-- state.detection: last AI detection result (confidence kept as Int). -/
structure Detection where
  pest : Bool
  disease : Bool
  ripe : Bool
  confidence : Int
  timestamp : Option Int
deriving DecidableEq

/-- The SystemState object of the gateway. -/
structure SystemState where
  mode : Mode
  sensors : Sensors
  actuators : ActMap
  detection : Detection
  override : ActMap
  last_watering : Int
  esp32_online : Bool
  camera_online : Bool
deriving DecidableEq

/-- SystemState.__init__: mode auto, no readings, everything off/false, last_watering 0. -/
def initState : SystemState :=
  { mode := Mode.auto
  , sensors := { temp := none, humidity := none, soil_temp := none
               , moisture := none, light := none, timestamp := none }
  , actuators := { pump := false, fan := false, light := false }
  , detection := { pest := false, disease := false, ripe := false
                 , confidence := 0, timestamp := none }
  , override := { pump := false, fan := false, light := false }
  , last_watering := 0
  , esp32_online := false
  , camera_online := false }

/-- Result of send_command: new state, returned boolean, and the commands
actually published on the wire. -/
structure Dispatch where
  st : SystemState
  ok : Bool
  sent : List OutCmd
deriving DecidableEq

/-- send_command (lines 112-141).  `connected` models the truthiness of
mqtt_client; `raises` models mqtt_client.publish raising a transport error
(the except branch).  On a raise, nothing was delivered and the belief
update line is never reached.  The unknown-actuator branch (line 130) is
unrepresentable here because Actuator is a closed type: every call site in
the source passes one of the three known identifiers. -/
def send_command (connected raises : Bool) (stt : SystemState)
    (actuator : Actuator) (state_on : Bool) : Dispatch :=
  if connected = false then { st := stt, ok := false, sent := [] }
  else if raises = true then { st := stt, ok := false, sent := [] }
  else { st := { stt with actuators := stt.actuators.set actuator state_on }
       , ok := true
       , sent := [(actuator, state_on)] }

/-- control_pump (line 143). -/
def control_pump (c r : Bool) (stt : SystemState) (state_on : Bool) : Dispatch :=
  send_command c r stt Actuator.pump state_on

/-- control_fan (line 147). -/
def control_fan (c r : Bool) (stt : SystemState) (state_on : Bool) : Dispatch :=
  send_command c r stt Actuator.fan state_on

/-- control_light (line 151). -/
def control_light (c r : Bool) (stt : SystemState) (state_on : Bool) : Dispatch :=
  send_command c r stt Actuator.light state_on

/-- Python truthiness of `not sensors['temp']` (line 231): both None and a
reading of exactly 0 are falsy. -/
def tempFalsy : Option Int → Bool
  | none => true
  | some t => t == 0

/-- LIGHT CONTROL section of auto_control (lines 236-247). -/
def lightStep (c r : Bool) (stt : SystemState) : SystemState × List OutCmd :=
  match stt.sensors.light with
  | none => (stt, [])
  | some lv =>
    let should_be_on : Bool := lv < LIGHT_THRESHOLD
    let is_on : Bool := stt.actuators.light
    let is_overridden : Bool := stt.override.light
    if should_be_on && !is_on && !is_overridden then
      let d := control_light c r stt true
      (d.st, d.sent)
    else if !should_be_on && is_on && !is_overridden then
      let d := control_light c r stt false
      (d.st, d.sent)
    else (stt, [])

/-- IRRIGATION CONTROL section of auto_control (lines 249-259): pump on,
water for 2 seconds (blocking sleep), pump off, then record the trigger
time (`current_time`, captured at evaluation start) in last_watering. -/
def pumpStep (c r : Bool) (now : Int) (stt : SystemState) : SystemState × List OutCmd :=
  match stt.sensors.moisture with
  | none => (stt, [])
  | some m =>
    if m < SOIL_MOISTURE_THRESHOLD then
      let cooldown_passed : Bool := WATERING_COOLDOWN ≤ now - stt.last_watering
      if cooldown_passed && !stt.override.pump then
        let d1 := control_pump c r stt true
        let d2 := control_pump c r d1.st false
        ({ d2.st with last_watering := now }, d1.sent ++ d2.sent)
      else (stt, [])
    else (stt, [])

/-- COOLING CONTROL section of auto_control (lines 261-271). -/
def fanStep (c r : Bool) (stt : SystemState) : SystemState × List OutCmd :=
  match stt.sensors.temp with
  | none => (stt, [])
  | some t =>
    let should_be_on : Bool := TEMP_THRESHOLD < t
    let is_on : Bool := stt.actuators.fan
    let is_overridden : Bool := stt.override.fan
    if should_be_on && !is_on && !is_overridden then
      let d := control_fan c r stt true
      (d.st, d.sent)
    else if !should_be_on && is_on && !is_overridden then
      let d := control_fan c r stt false
      (d.st, d.sent)
    else (stt, [])

/-- auto_control (lines 218-271): skip in manual mode; skip when
`not sensors['temp'] or sensors['moisture'] is None`; otherwise run the
light, irrigation and cooling sections in order.  Returns the new state
and the outbound commands published during the evaluation, in order. -/
def auto_control (c r : Bool) (now : Int) (stt : SystemState) : SystemState × List OutCmd :=
  if stt.mode = Mode.manual then (stt, [])
  else if tempFalsy stt.sensors.temp || stt.sensors.moisture.isNone then (stt, [])
  else
    let r1 := lightStep c r stt
    let r2 := pumpStep c r now r1.1
    let r3 := fanStep c r r2.1
    (r3.1, r1.2 ++ r2.2 ++ r3.2)

/-- A sensor message: the numeric fields that may be present in the JSON
object published on the sensor topic (subset of temp / humidity /
soil_temp / moisture / light). -/
structure SensorMsg where
  temp : Option Int
  humidity : Option Int
  soil_temp : Option Int
  moisture : Option Int
  light : Option Int
deriving DecidableEq

/-- Merge of one optional field: dict.update keeps the old value when the
key is absent from the message. -/
def updField (new old : Option Int) : Option Int :=
  match new with
  | some v => some v
  | none => old

/-- state.sensors.update(data) followed by the timestamp write
(lines 402-403), for a message whose present fields are numeric. -/
def mergeSensors (s : Sensors) (m : SensorMsg) (now : Int) : Sensors :=
  { temp := updField m.temp s.temp
  , humidity := updField m.humidity s.humidity
  , soil_temp := updField m.soil_temp s.soil_temp
  , moisture := updField m.moisture s.moisture
  , light := updField m.light s.light
  , timestamp := some now }

/-- The sensor-topic branch of on_mqtt_message (lines 400-409) under a
healthy transport (mqtt connected, publish never raises): merge the
message, mark the node live, then run auto_control with the current
wall-clock time. -/
def sensorStep (ev : Int × SensorMsg) (stt : SystemState) : SystemState × List OutCmd :=
  let stt1 := { stt with
    sensors := mergeSensors stt.sensors ev.2 ev.1,
    esp32_online := true }
  auto_control true false ev.1 stt1

/-- Fold a whole trace of timestamped sensor messages through sensorStep. -/
def runTrace (stt : SystemState) : List (Int × SensorMsg) → SystemState
  | [] => stt
  | ev :: evs => runTrace (sensorStep ev stt).1 evs

/-- The times at which a pump activation (an outbound pump-on command)
occurs while processing a trace of sensor messages. -/
def activations (stt : SystemState) : List (Int × SensorMsg) → List Int
  | [] => []
  | ev :: evs =>
    (if (Actuator.pump, true) ∈ (sensorStep ev stt).2 then [ev.1] else []) ++
      activations (sensorStep ev stt).1 evs

/-- The membership test `payload in [MODE_MANUAL, MODE_AUTO, MODE_HYBRID]`
used by both the /mode handler and the mode-topic handler. -/
def parseMode (s : String) : Option Mode :=
  if s = (r"manual") then some Mode.manual
  else if s = (r"auto") then some Mode.auto
  else if s = (r"hybrid") then some Mode.hybrid
  else none

/-- All-false override map (state.override reset literal, lines 368 and 425). -/
def clearedOverride : ActMap := { pump := false, fan := false, light := false }

/-- mode_endpoint (lines 359-376).  `body` is the parsed request JSON:
none models a body on which request.get_json()/data.get raises (caught by
the except branch, 500); `some mf` carries data.get('mode'), none when the
field is absent or not a string (then the membership test fails, 400).
After a valid mode is written and overrides cleared, the handler publishes
on the mode topic: with no mqtt client that line raises and the except
branch answers 500, but the state mutation has already happened. -/
def mode_endpoint (connected : Bool) (body : Option (Option String))
    (stt : SystemState) : SystemState × Nat :=
  match body with
  | none => (stt, 500)
  | some mf =>
    match mf with
    | none => (stt, 400)
    | some s =>
      match parseMode s with
      | none => (stt, 400)
      | some m =>
        let st' := { stt with mode := m, override := clearedOverride }
        if connected then (st', 200) else (st', 500)

/-- The mode-topic branch of on_mqtt_message (lines 422-426): a valid
payload switches the mode and clears all overrides, anything else is
ignored. -/
def on_mode_message (payload : String) (stt : SystemState) : SystemState :=
  match parseMode payload with
  | some m => { stt with mode := m, override := clearedOverride }
  | none => stt

/-- A parsed /control request body: which of the pump / fan / light keys
are present, and with which boolean value. -/
structure ControlReq where
  pump : Option Bool
  fan : Option Bool
  light : Option Bool
deriving DecidableEq

/-- control_endpoint (lines 329-357): reject with 403 while in auto mode
before touching anything; otherwise dispatch every requested actuator in
order (pump, fan, light), setting the matching override flag when in
hybrid mode.  Returns (new state, HTTP status, commands published). -/
def control_endpoint (c r : Bool) (req : ControlReq) (stt : SystemState) :
    SystemState × Nat × List OutCmd :=
  if stt.mode = Mode.auto then (stt, 403, [])
  else
    let s1p :=
      match req.pump with
      | some b =>
        let d := control_pump c r stt b
        (if stt.mode = Mode.hybrid
         then { d.st with override := d.st.override.set Actuator.pump true }
         else d.st, d.sent)
      | none => (stt, [])
    let s2p :=
      match req.fan with
      | some b =>
        let d := control_fan c r s1p.1 b
        (if stt.mode = Mode.hybrid
         then { d.st with override := d.st.override.set Actuator.fan true }
         else d.st, d.sent)
      | none => (s1p.1, [])
    let s3p :=
      match req.light with
      | some b =>
        let d := control_light c r s2p.1 b
        (if stt.mode = Mode.hybrid
         then { d.st with override := d.st.override.set Actuator.light true }
         else d.st, d.sent)
      | none => (s2p.1, [])
    (s3p.1, 200, s1p.2 ++ s2p.2 ++ s3p.2)

/-- The dictionary returned by detect_objects: either the error dict
(which has no pest_detected key) or the full result dict. -/
inductive DetectOut
  | err (msg : String)
  | found (pest disease : Bool) (ripe : Nat) (conf : Int) (ts : Int)
deriving DecidableEq

/-- detect_objects (lines 164-214).  `decode` models cv2.imdecode, which
returns None (here: none) when the bytes are not a decodable image; on
success the placeholder model returns the all-false dummy result. -/
def detect_objects (decode : List Nat → Option Unit) (now : Int)
    (image_data : List Nat) : DetectOut :=
  match decode image_data with
  | none => DetectOut.err (r"Invalid image")
  | some _ => DetectOut.found false false 0 0 now

/-- Alert categories used by the /detect handler. -/
inductive AlertType
  | pest
  | disease
  | harvest
deriving DecidableEq

/-- An alert message published on the alert topic by send_alert. -/
structure Alert where
  alert_type : AlertType
  confidence : Int
  timestamp : Int
deriving DecidableEq

/-- send_alert (lines 431-441): publishes one alert message when the mqtt
client exists, otherwise nothing leaves the gateway. -/
def send_alert (connected : Bool) (alert_type : AlertType)
    (confidence : Int) (now : Int) : List Alert :=
  if connected then [{ alert_type := alert_type, confidence := confidence, timestamp := now }]
  else []

/-- Lines 292-306 of detect_endpoint: when the result dict has the
pest_detected key, overwrite the stored detection (confidence is not
stored) and emit the alerts; the error dict leaves everything untouched. -/
def processDetection (connected : Bool) (now : Int) (stt : SystemState)
    (result : DetectOut) : SystemState × List Alert :=
  match result with
  | DetectOut.err _ => (stt, [])
  | DetectOut.found p d ripe conf ts =>
    let st' := { stt with
      detection := { pest := p, disease := d, ripe := decide (0 < ripe),
                     confidence := stt.detection.confidence, timestamp := some ts } }
    let alerts :=
      (if p then send_alert connected AlertType.pest conf now else []) ++
      (if d then send_alert connected AlertType.disease conf now else []) ++
      (if 0 < ripe then send_alert connected AlertType.harvest conf now else [])
    (st', alerts)

/-- detect_endpoint (lines 277-312): 400 on an empty body; otherwise run
detection and return the result dict with status 200 — including the
decode-error dict, which takes the plain `return jsonify(result)` path.
Returns (new state, HTTP status, alerts emitted). -/
def detect_endpoint (connected : Bool) (decode : List Nat → Option Unit)
    (now : Int) (image_data : List Nat) (stt : SystemState) :
    SystemState × Nat × List Alert :=
  if image_data.isEmpty then (stt, 400, [])
  else
    let result := detect_objects decode now image_data
    let pr := processDetection connected now stt result
    (pr.1, 200, pr.2)

/-- A JSON value, as produced by json.loads. -/
inductive JVal
  | null
  | bool (b : Bool)
  | num (n : Int)
  | str (s : String)
  | arr (elems : List JVal)
  | obj (fields : List (String × JVal))

/-- A hashable Python value usable as a dict key.  A JSON true/false key
is normalised to 1/0, matching Python where True == 1 hash-equal. -/
inductive JKey
  | null
  | num (n : Int)
  | str (s : String)
deriving DecidableEq

/-- Hashability of a value used as a key: lists and dicts raise TypeError. -/
def keyOf : JVal → Option JKey
  | JVal.null => some JKey.null
  | JVal.bool b => some (JKey.num (if b then 1 else 0))
  | JVal.num n => some (JKey.num n)
  | JVal.str s => some (JKey.str s)
  | JVal.arr _ => none
  | JVal.obj _ => none

/-- A Python dict: insertion-ordered association list, value replaced in
place when the key already exists. -/
def dictInsert : List (JKey × JVal) → JKey → JVal → List (JKey × JVal)
  | [], k, v => [(k, v)]
  | (k', v') :: rest, k, v =>
    if k' = k then (k', v) :: rest else (k', v') :: dictInsert rest k v

/-- One element of a key/value sequence handed to dict.update: a 2-element
list gives (key, value); a 2-character string gives its two characters; a
2-key dict gives its two keys; anything else raises. -/
def pairOf : JVal → Option (JKey × JVal)
  | JVal.arr [k, v] => (keyOf k).map (fun kk => (kk, v))
  | JVal.arr _ => none
  | JVal.str s =>
    match s.toList with
    | [a, b] => some (JKey.str (String.mk [a]), JVal.str (String.mk [b]))
    | _ => none
  | JVal.obj [(k1, _), (k2, _)] => some (JKey.str k1, JVal.str k2)
  | _ => none

/-- dict.update fed a sequence: elements are consumed left to right and an
invalid element raises, keeping the insertions already made (the partially
mutated dict survives, CPython behavior). -/
def updateSeq : List (JKey × JVal) → List JVal → List (JKey × JVal) × Bool
  | d, [] => (d, true)
  | d, e :: rest =>
    match pairOf e with
    | some kv => updateSeq (dictInsert d kv.1 kv.2) rest
    | none => (d, false)

/-- state.sensors.update(data) for an arbitrary json.loads result: a dict
merges its entries; a list is treated as a key/value sequence; a string is
the sequence of its characters; null/bool/number are not iterable and
raise at once.  The boolean reports whether the call completed. -/
def dictUpdate (d : List (JKey × JVal)) : JVal → List (JKey × JVal) × Bool
  | JVal.obj kvs => (kvs.foldl (fun a kv => dictInsert a (JKey.str kv.1) kv.2) d, true)
  | JVal.arr es => updateSeq d es
  | JVal.str s => updateSeq d (s.toList.map (fun ch => JVal.str (String.mk [ch])))
  | _ => (d, false)

/-- The sensor-topic branch of on_mqtt_message (lines 399-409) at the raw
dict level.  `payload` is none when json.loads itself raises; the handler
except clause swallows every error, so the function is total and never
propagates a failure.  Returns (sensors dict, esp32_online, whether
auto_control was reached). -/
def sensorIngest (d : List (JKey × JVal)) (esp : Bool)
    (payload : Option JVal) (now : Int) : List (JKey × JVal) × Bool × Bool :=
  match payload with
  | none => (d, esp, false)
  | some v =>
    let u := dictUpdate d v
    if u.2 then (dictInsert u.1 (JKey.str (r"timestamp")) (JVal.num now), true, true)
    else (u.1, esp, false)

/-- Association lookup in the dict model. -/
def getVal : List (JKey × JVal) → JKey → Option JVal
  | [], _ => none
  | (k', v) :: rest, k => if k' = k then some v else getVal rest k

/-- Numeric projection of a dict entry (none when absent or non-numeric). -/
def getNum (d : List (JKey × JVal)) (k : JKey) : Option Int :=
  match getVal d k with
  | some (JVal.num n) => some n
  | _ => none

/-- The initial state.sensors dict (all keys mapped to None). -/
def initSensorDict : List (JKey × JVal) :=
  [ (JKey.str (r"temp"), JVal.null)
  , (JKey.str (r"humidity"), JVal.null)
  , (JKey.str (r"soil_temp"), JVal.null)
  , (JKey.str (r"moisture"), JVal.null)
  , (JKey.str (r"light"), JVal.null)
  , (JKey.str (r"timestamp"), JVal.null) ]

/-- The payload of the C7 counterexample: the JSON text
[["temp", 25]] — well-formed JSON, not an object. -/
def pairArrayPayload : JVal :=
  JVal.arr [JVal.arr [JVal.str (r"temp"), JVal.num 25]]

/-- Concrete state for the C1 failing input: both readings present, with an
air temperature of exactly 0 degrees C and a dry soil reading of 20. -/
def stC1 : SystemState :=
  { initState with sensors := { initState.sensors with temp := some 0, moisture := some 20 } }

/-- Concrete state for the C2 counterexample: temperature present and equal
to 0, fan believed on, no override. -/
def stC2 : SystemState :=
  { initState with
    sensors := { initState.sensors with temp := some 0, moisture := some 50 },
    actuators := { pump := false, fan := true, light := false } }

/-- Concrete state with all three readings present (hot, dry, dark) used by
the C2 and C10 witnesses. -/
def stOK : SystemState :=
  { initState with
    sensors := { initState.sensors with temp := some 35, moisture := some 20, light := some 10 } }

/-- Concrete state with every override flag raised, used by the C5 witness. -/
def stOvr : SystemState :=
  { initState with override := { pump := true, fan := true, light := true } }

/-- Concrete state with a mild temperature of 20, the fan believed on and
no light reading, used by the C2 witness for the light-absent case. -/
def stNoLight : SystemState :=
  { initState with
    sensors := { initState.sensors with temp := some 20, moisture := some 50 },
    actuators := { pump := false, fan := true, light := true } }

/-- Concrete sensor message (temperature 25, moisture 20) used by the C3
witness: it triggers an irrigation cycle from the initial state. -/
def msgW : SensorMsg :=
  { temp := some 25, humidity := none, soil_temp := none, moisture := some 20, light := none }

theorem send_command_ok (stt : SystemState) (a : Actuator) (b : Bool) :
    send_command true false stt a b =
      { st := { stt with actuators := stt.actuators.set a b }, ok := true, sent := [(a, b)] } := rfl

theorem lightStep_none (c r : Bool) (stt : SystemState) (h : stt.sensors.light = none) :
    lightStep c r stt = (stt, []) := by
  unfold lightStep
  rw [h]

theorem lightStep_ovr (c r : Bool) (stt : SystemState) (h : stt.override.light = true) :
    lightStep c r stt = (stt, []) := by
  unfold lightStep
  cases hl : stt.sensors.light with
  | none => rfl
  | some lv => simp [h]

theorem lightStep_char (stt : SystemState) (lv : Int)
    (hl : stt.sensors.light = some lv) (hovr : stt.override.light = false) :
    lightStep true false stt =
      ({ stt with actuators := stt.actuators.set Actuator.light (decide (lv < LIGHT_THRESHOLD)) },
       if stt.actuators.light = decide (lv < LIGHT_THRESHOLD) then []
       else [(Actuator.light, decide (lv < LIGHT_THRESHOLD))]) := by
  obtain ⟨mo, se, ac, de, ov, lw, e1, e2⟩ := stt
  obtain ⟨ap, af, al⟩ := ac
  obtain ⟨op, ovf, ol⟩ := ov
  simp only at hl hovr
  subst hovr
  by_cases hlt : lv < LIGHT_THRESHOLD <;> cases al <;>
    simp [lightStep, control_light, send_command, ActMap.set, hl, hlt]

theorem fanStep_ovr (c r : Bool) (stt : SystemState) (h : stt.override.fan = true) :
    fanStep c r stt = (stt, []) := by
  unfold fanStep
  cases ht : stt.sensors.temp with
  | none => rfl
  | some t => simp [h]

theorem fanStep_char (stt : SystemState) (t : Int)
    (ht : stt.sensors.temp = some t) (hovr : stt.override.fan = false) :
    fanStep true false stt =
      ({ stt with actuators := stt.actuators.set Actuator.fan (decide (TEMP_THRESHOLD < t)) },
       if stt.actuators.fan = decide (TEMP_THRESHOLD < t) then []
       else [(Actuator.fan, decide (TEMP_THRESHOLD < t))]) := by
  obtain ⟨mo, se, ac, de, ov, lw, e1, e2⟩ := stt
  obtain ⟨ap, af, al⟩ := ac
  obtain ⟨op, ovf, ol⟩ := ov
  simp only at ht hovr
  subst hovr
  by_cases hgt : TEMP_THRESHOLD < t <;> cases af <;>
    simp [fanStep, control_fan, send_command, ActMap.set, ht, hgt]

theorem pumpStep_skip (c r : Bool) (now : Int) (stt : SystemState) (m : Int)
    (hm : stt.sensors.moisture = some m)
    (h : m < SOIL_MOISTURE_THRESHOLD → WATERING_COOLDOWN ≤ now - stt.last_watering →
         stt.override.pump = true) :
    pumpStep c r now stt = (stt, []) := by
  unfold pumpStep
  rw [hm]
  by_cases h1 : m < SOIL_MOISTURE_THRESHOLD
  · by_cases h2 : WATERING_COOLDOWN ≤ now - stt.last_watering
    · simp [h1, h2, h h1 h2]
    · simp [h1, h2]
  · simp [h1]

theorem pumpStep_trigger (now : Int) (stt : SystemState) (m : Int)
    (hm : stt.sensors.moisture = some m) (h1 : m < SOIL_MOISTURE_THRESHOLD)
    (h2 : WATERING_COOLDOWN ≤ now - stt.last_watering) (h3 : stt.override.pump = false) :
    pumpStep true false now stt =
      ({ stt with actuators := stt.actuators.set Actuator.pump false, last_watering := now },
       [(Actuator.pump, true), (Actuator.pump, false)]) := by
  obtain ⟨mo, se, ac, de, ov, lw, e1, e2⟩ := stt
  obtain ⟨ap, af, al⟩ := ac
  obtain ⟨op, ovf, ol⟩ := ov
  simp only at hm h2 h3
  subst h3
  simp [pumpStep, control_pump, send_command, ActMap.set, hm, h1, h2]

theorem lightStep_pres (c r : Bool) (s : SystemState) :
    (lightStep c r s).1.mode = s.mode ∧
    (lightStep c r s).1.sensors = s.sensors ∧
    (lightStep c r s).1.override = s.override ∧
    (lightStep c r s).1.last_watering = s.last_watering ∧
    (lightStep c r s).1.actuators.pump = s.actuators.pump ∧
    (lightStep c r s).1.actuators.fan = s.actuators.fan := by
  unfold lightStep control_light send_command
  cases hl : s.sensors.light with
  | none => simp
  | some lv => split_ifs <;> simp [ActMap.set] <;> split_ifs <;> simp [ActMap.set]

theorem pumpStep_pres (c r : Bool) (now : Int) (s : SystemState) :
    (pumpStep c r now s).1.mode = s.mode ∧
    (pumpStep c r now s).1.sensors = s.sensors ∧
    (pumpStep c r now s).1.override = s.override ∧
    (pumpStep c r now s).1.actuators.fan = s.actuators.fan ∧
    (pumpStep c r now s).1.actuators.light = s.actuators.light := by
  unfold pumpStep control_pump send_command
  cases hm : s.sensors.moisture with
  | none => simp
  | some m => split_ifs <;> simp [ActMap.set] <;> split_ifs <;> simp [ActMap.set]

theorem fanStep_pres (c r : Bool) (s : SystemState) :
    (fanStep c r s).1.mode = s.mode ∧
    (fanStep c r s).1.sensors = s.sensors ∧
    (fanStep c r s).1.override = s.override ∧
    (fanStep c r s).1.last_watering = s.last_watering ∧
    (fanStep c r s).1.actuators.pump = s.actuators.pump ∧
    (fanStep c r s).1.actuators.light = s.actuators.light := by
  unfold fanStep control_fan send_command
  cases ht : s.sensors.temp with
  | none => simp
  | some t => split_ifs <;> simp [ActMap.set] <;> split_ifs <;> simp [ActMap.set]

theorem lightStep_cmds (c r : Bool) (s : SystemState) :
    ∀ x ∈ (lightStep c r s).2, x.1 = Actuator.light := by
  unfold lightStep control_light send_command
  cases hl : s.sensors.light with
  | none => simp
  | some lv => split_ifs <;> simp <;> split_ifs <;> simp

theorem pumpStep_cmds (c r : Bool) (now : Int) (s : SystemState) :
    ∀ x ∈ (pumpStep c r now s).2, x.1 = Actuator.pump := by
  unfold pumpStep control_pump send_command
  cases hm : s.sensors.moisture with
  | none => simp
  | some m => split_ifs <;> simp <;> split_ifs <;> simp

theorem fanStep_cmds (c r : Bool) (s : SystemState) :
    ∀ x ∈ (fanStep c r s).2, x.1 = Actuator.fan := by
  unfold fanStep control_fan send_command
  cases ht : s.sensors.temp with
  | none => simp
  | some t => split_ifs <;> simp <;> split_ifs <;> simp

theorem auto_control_unfold (now : Int) (stt : SystemState)
    (hmode : stt.mode ≠ Mode.manual)
    (hg : (tempFalsy stt.sensors.temp || stt.sensors.moisture.isNone) = false) :
    auto_control true false now stt =
      ((fanStep true false (pumpStep true false now (lightStep true false stt).1).1).1,
       (lightStep true false stt).2 ++
         (pumpStep true false now (lightStep true false stt).1).2 ++
         (fanStep true false (pumpStep true false now (lightStep true false stt).1).1).2) := by
  unfold auto_control
  rw [if_neg hmode, hg]
  simp

theorem filter_not_mine (a : Actuator) (l : List OutCmd) (h : ∀ x ∈ l, x.1 ≠ a) :
    l.filter (fun p => decide (p.1 = a)) = [] := by
  rw [List.filter_eq_nil_iff]
  intro x hx
  simp [h x hx]

/-- Claim C2 (amended): for every evaluation that passes the data-present
guard (temperature reading present and nonzero, moisture present): the fan
belief becomes airTemperature > TEMP_THRESHOLD whenever the fan override
is clear, an overridden fan keeps its belief, and a fan command is
dispatched exactly when the desired state differs from the current belief
with the override clear; whenever the light reading is present the light
rule enjoys the same guarantees with desired-on iff
lightLevel < LIGHT_THRESHOLD (boundary values do not trigger: both
comparisons are strict), and when the light reading is absent the light
rule is skipped for the cycle: belief unchanged and no light command.
Repeated identical readings dispatch nothing. -/
theorem C2_hysteresis (now : Int) (stt : SystemState) (t m : Int)
    (hmode : stt.mode ≠ Mode.manual)
    (ht : stt.sensors.temp = some t) (ht0 : t ≠ 0)
    (hm : stt.sensors.moisture = some m) :
    ((auto_control true false now stt).1.actuators.fan =
        (if stt.override.fan = true then stt.actuators.fan
         else decide (TEMP_THRESHOLD < t)))
    ∧ ((auto_control true false now stt).2.filter (fun p => decide (p.1 = Actuator.fan)) =
        (if stt.override.fan = true ∨ stt.actuators.fan = decide (TEMP_THRESHOLD < t)
         then [] else [(Actuator.fan, decide (TEMP_THRESHOLD < t))]))
    ∧ (∀ lv : Int, stt.sensors.light = some lv →
        ((auto_control true false now stt).1.actuators.light =
            (if stt.override.light = true then stt.actuators.light
             else decide (lv < LIGHT_THRESHOLD)))
        ∧ ((auto_control true false now stt).2.filter
              (fun p => decide (p.1 = Actuator.light)) =
            (if stt.override.light = true ∨ stt.actuators.light = decide (lv < LIGHT_THRESHOLD)
             then [] else [(Actuator.light, decide (lv < LIGHT_THRESHOLD))])))
    ∧ (stt.sensors.light = none →
        (auto_control true false now stt).1.actuators.light = stt.actuators.light
        ∧ (auto_control true false now stt).2.filter
            (fun p => decide (p.1 = Actuator.light)) = []) := by
  have hg : (tempFalsy stt.sensors.temp || stt.sensors.moisture.isNone) = false := by
    rw [ht, hm]; simp [tempFalsy, ht0]
  rw [auto_control_unfold now stt hmode hg]
  obtain ⟨lpm, lps, lpo, lplw, lpp, lpf⟩ := lightStep_pres true false stt
  obtain ⟨ppm, pps, ppo, ppf, ppl⟩ := pumpStep_pres true false now (lightStep true false stt).1
  obtain ⟨fpm, fps, fpo, fplw, fpp, fpl⟩ :=
    fanStep_pres true false (pumpStep true false now (lightStep true false stt).1).1
  have hPt : (pumpStep true false now (lightStep true false stt).1).1.sensors.temp = some t := by
    rw [pps, lps, ht]
  have hPfo : (pumpStep true false now (lightStep true false stt).1).1.override.fan =
      stt.override.fan := by rw [ppo, lpo]
  have hPfb : (pumpStep true false now (lightStep true false stt).1).1.actuators.fan =
      stt.actuators.fan := by rw [ppf, lpf]
  have hpump_l : (pumpStep true false now (lightStep true false stt).1).2.filter
      (fun p => decide (p.1 = Actuator.light)) = [] := by
    apply filter_not_mine
    intro x hx
    rw [pumpStep_cmds true false now _ x hx]
    decide
  have hpump_f : (pumpStep true false now (lightStep true false stt).1).2.filter
      (fun p => decide (p.1 = Actuator.fan)) = [] := by
    apply filter_not_mine
    intro x hx
    rw [pumpStep_cmds true false now _ x hx]
    decide
  have hfan_l : (fanStep true false (pumpStep true false now
      (lightStep true false stt).1).1).2.filter
      (fun p => decide (p.1 = Actuator.light)) = [] := by
    apply filter_not_mine
    intro x hx
    rw [fanStep_cmds true false _ x hx]
    decide
  have hlight_f : (lightStep true false stt).2.filter
      (fun p => decide (p.1 = Actuator.fan)) = [] := by
    apply filter_not_mine
    intro x hx
    rw [lightStep_cmds true false _ x hx]
    decide
  refine ⟨?_, ?_, ?_, ?_⟩
  · by_cases hovf : stt.override.fan = true
    · rw [fanStep_ovr true false _ (by rw [hPfo]; exact hovf)]
      rw [hPfb]
      simp [hovf]
    · have hovf' : stt.override.fan = false := by simpa using hovf
      rw [fanStep_char _ t hPt (by rw [hPfo]; exact hovf')]
      simp [hovf', ActMap.set]
  · rw [List.filter_append, List.filter_append, hlight_f, hpump_f]
    by_cases hovf : stt.override.fan = true
    · rw [fanStep_ovr true false _ (by rw [hPfo]; exact hovf)]
      simp [hovf]
    · have hovf' : stt.override.fan = false := by simpa using hovf
      rw [fanStep_char _ t hPt (by rw [hPfo]; exact hovf')]
      rw [hPfb]
      by_cases hbf : stt.actuators.fan = decide (TEMP_THRESHOLD < t)
      · simp [hovf', hbf]
      · simp [hovf', hbf]
  · intro lv hl
    constructor
    · rw [fpl, ppl]
      by_cases hovl : stt.override.light = true
      · rw [lightStep_ovr true false stt hovl]
        simp [hovl]
      · have hovl' : stt.override.light = false := by simpa using hovl
        rw [lightStep_char stt lv hl hovl']
        simp [hovl', ActMap.set]
    · rw [List.filter_append, List.filter_append, hpump_l, hfan_l]
      by_cases hovl : stt.override.light = true
      · rw [lightStep_ovr true false stt hovl]
        simp [hovl]
      · have hovl' : stt.override.light = false := by simpa using hovl
        rw [lightStep_char stt lv hl hovl']
        by_cases hb : stt.actuators.light = decide (lv < LIGHT_THRESHOLD)
        · simp [hovl', hb]
        · simp [hovl', hb]
  · intro hln
    constructor
    · rw [fpl, ppl, lightStep_none true false stt hln]
    · rw [List.filter_append, List.filter_append, hpump_l, hfan_l,
        lightStep_none true false stt hln]
      simp

/-- Claim C10: when the irrigation rule triggers (dry soil, cooldown
elapsed, no pump override, data-present guard passed), the very same
auto_control evaluation publishes pump-on followed by pump-off — the
watering is synchronous, not deferred — and, the publishes succeeding,
the pump belief is false when the evaluation returns. -/
theorem C10_sync (now : Int) (stt : SystemState) (t m : Int)
    (hmode : stt.mode ≠ Mode.manual)
    (ht : stt.sensors.temp = some t) (ht0 : t ≠ 0)
    (hm : stt.sensors.moisture = some m) (h1 : m < SOIL_MOISTURE_THRESHOLD)
    (h2 : WATERING_COOLDOWN ≤ now - stt.last_watering) (h3 : stt.override.pump = false) :
    ((auto_control true false now stt).2.filter (fun p => decide (p.1 = Actuator.pump)) =
      [(Actuator.pump, true), (Actuator.pump, false)])
    ∧ (auto_control true false now stt).1.actuators.pump = false := by
  have hg : (tempFalsy stt.sensors.temp || stt.sensors.moisture.isNone) = false := by
    rw [ht, hm]; simp [tempFalsy, ht0]
  rw [auto_control_unfold now stt hmode hg]
  obtain ⟨lpm, lps, lpo, lplw, lpp, lpf⟩ := lightStep_pres true false stt
  obtain ⟨fpm, fps, fpo, fplw, fpp, fpl⟩ :=
    fanStep_pres true false (pumpStep true false now (lightStep true false stt).1).1
  have hLm : (lightStep true false stt).1.sensors.moisture = some m := by rw [lps, hm]
  have trig := pumpStep_trigger now (lightStep true false stt).1 m hLm h1
    (by rw [lplw]; exact h2) (by rw [lpo]; exact h3)
  have hlp : (lightStep true false stt).2.filter (fun p => decide (p.1 = Actuator.pump)) = [] := by
    apply filter_not_mine
    intro x hx
    rw [lightStep_cmds true false stt x hx]
    decide
  have hfp : (fanStep true false (pumpStep true false now
      (lightStep true false stt).1).1).2.filter
      (fun p => decide (p.1 = Actuator.pump)) = [] := by
    apply filter_not_mine
    intro x hx
    rw [fanStep_cmds true false _ x hx]
    decide
  constructor
  · rw [List.filter_append, List.filter_append, hlp, hfp, trig]
    simp
  · rw [fpp, trig]
    simp [ActMap.set]

theorem auto_lw (now : Int) (s : SystemState) :
    ((auto_control true false now s).1.last_watering = s.last_watering ∧
      (Actuator.pump, true) ∉ (auto_control true false now s).2)
    ∨ (s.last_watering + WATERING_COOLDOWN ≤ now ∧
        (auto_control true false now s).1.last_watering = now) := by
  by_cases hmode : s.mode = Mode.manual
  · left
    unfold auto_control
    simp [hmode]
  by_cases hg : (tempFalsy s.sensors.temp || s.sensors.moisture.isNone) = true
  · left
    unfold auto_control
    rw [if_neg hmode, hg]
    simp
  have hg' : (tempFalsy s.sensors.temp || s.sensors.moisture.isNone) = false := by
    cases hb : (tempFalsy s.sensors.temp || s.sensors.moisture.isNone)
    · rfl
    · exact absurd hb hg
  obtain ⟨m, hm⟩ : ∃ m, s.sensors.moisture = some m := by
    cases h : s.sensors.moisture
    · rw [h] at hg'; simp at hg'
    · exact ⟨_, rfl⟩
  rw [auto_control_unfold now s hmode hg']
  obtain ⟨lpm, lps, lpo, lplw, lpp, lpf⟩ := lightStep_pres true false s
  obtain ⟨fpm, fps, fpo, fplw, fpp, fpl⟩ :=
    fanStep_pres true false (pumpStep true false now (lightStep true false s).1).1
  have hLm : (lightStep true false s).1.sensors.moisture = some m := by rw [lps, hm]
  by_cases htrig : m < SOIL_MOISTURE_THRESHOLD ∧
      WATERING_COOLDOWN ≤ now - s.last_watering ∧ s.override.pump = false
  · right
    obtain ⟨h1, h2, h3⟩ := htrig
    have trig := pumpStep_trigger now (lightStep true false s).1 m hLm h1
      (by rw [lplw]; exact h2) (by rw [lpo]; exact h3)
    constructor
    · omega
    · rw [fplw, trig]
  · left
    have hskip := pumpStep_skip true false now (lightStep true false s).1 m hLm
      (by
        intro hA hB
        rw [lpo]
        rw [lplw] at hB
        by_contra hC
        exact htrig ⟨hA, hB, by simpa using hC⟩)
    constructor
    · rw [fplw, hskip]
      exact lplw
    · intro hmem
      simp only [hskip, List.append_nil, List.mem_append] at hmem
      rcases hmem with h | h
      · exact absurd (lightStep_cmds true false s _ h) (by decide)
      · exact absurd (fanStep_cmds true false _ _ h) (by decide)

theorem step_lw (ev : Int × SensorMsg) (stt : SystemState) :
    ((sensorStep ev stt).1.last_watering = stt.last_watering ∧
      (Actuator.pump, true) ∉ (sensorStep ev stt).2)
    ∨ (stt.last_watering + WATERING_COOLDOWN ≤ ev.1 ∧
        (sensorStep ev stt).1.last_watering = ev.1) := by
  have h := auto_lw ev.1
    ({ stt with sensors := mergeSensors stt.sensors ev.2 ev.1, esp32_online := true })
  simpa [sensorStep] using h

theorem step_lw_mono (ev : Int × SensorMsg) (stt : SystemState) :
    stt.last_watering ≤ (sensorStep ev stt).1.last_watering := by
  rcases step_lw ev stt with ⟨h1, _⟩ | ⟨h1, h2⟩
  · rw [h1]
  · rw [h2]
    have hW : (0:Int) ≤ WATERING_COOLDOWN := by decide
    omega

theorem acts_lb (evs : List (Int × SensorMsg)) :
    ∀ (stt : SystemState) (t : Int), t ∈ activations stt evs →
      stt.last_watering + WATERING_COOLDOWN ≤ t := by
  induction evs with
  | nil => intro stt t ht; simp [activations] at ht
  | cons ev evs ih =>
    intro stt t ht
    simp only [activations] at ht
    rw [List.mem_append] at ht
    rcases ht with hhead | htail
    · by_cases hmem : (Actuator.pump, true) ∈ (sensorStep ev stt).2
      · rw [if_pos hmem] at hhead
        simp at hhead
        subst hhead
        rcases step_lw ev stt with ⟨_, hnot⟩ | ⟨h1, _⟩
        · exact absurd hmem hnot
        · exact h1
      · rw [if_neg hmem] at hhead
        simp at hhead
    · have h1 := ih (sensorStep ev stt).1 t htail
      have hmono := step_lw_mono ev stt
      omega

theorem acts_pairwise (evs : List (Int × SensorMsg)) :
    ∀ stt : SystemState, List.Pairwise (fun t1 t2 => t1 + WATERING_COOLDOWN ≤ t2)
      (activations stt evs) := by
  induction evs with
  | nil => intro stt; simp [activations]
  | cons ev evs ih =>
    intro stt
    simp only [activations]
    by_cases hmem : (Actuator.pump, true) ∈ (sensorStep ev stt).2
    · rw [if_pos hmem]
      simp only [List.singleton_append, List.pairwise_cons]
      constructor
      · intro t ht
        have hlb := acts_lb evs (sensorStep ev stt).1 t ht
        rcases step_lw ev stt with ⟨_, hnot⟩ | ⟨_, h2⟩
        · exact absurd hmem hnot
        · rw [h2] at hlb; exact hlb
      · exact ih _
    · rw [if_neg hmem]
      simp only [List.nil_append]
      exact ih _


/-- Claim C1 (failing input): with mode auto and both the temperature and
the moisture reading present (temperature exactly 0, moisture 20, below
the threshold, cooldown long elapsed and no override), auto_control makes
no decision for any actuator: the state, including ActuatorBelief and
last_watering, is returned unchanged and no command is published.  The
claim and the source comment (skip only when sensor data is missing) call
for the irrigation rule to run here; the Python truthiness test
`not sensors[temp]` treats the present reading 0 as absent. -/
theorem C1_temp_zero :
    stC1.mode = Mode.auto
    ∧ stC1.sensors.temp = some 0
    ∧ stC1.sensors.moisture = some 20
    ∧ (20 : Int) < SOIL_MOISTURE_THRESHOLD
    ∧ WATERING_COOLDOWN ≤ (100 : Int) - stC1.last_watering
    ∧ stC1.override.pump = false
    ∧ auto_control true false 100 stC1 = (stC1, []) := by decide

/-- Claim C2 (counterexample): a state in which both required readings are
present (temperature = 0), the fan is believed on, the desired fan state
(0 > 30 is false) differs from that belief and the fan override is clear —
yet auto_control dispatches nothing and leaves belief unchanged, because
the data-present guard treats the reading 0 as missing.  This refutes the
claim as stated, which requires a fan command exactly on such a mismatch. -/
theorem C2_temp_zero_cex :
    stC2.mode = Mode.auto
    ∧ stC2.sensors.temp = some 0
    ∧ stC2.sensors.moisture = some 50
    ∧ stC2.override.fan = false
    ∧ stC2.actuators.fan = true
    ∧ decide (TEMP_THRESHOLD < (0 : Int)) ≠ stC2.actuators.fan
    ∧ auto_control true false 100 stC2 = (stC2, []) := by decide

/-- Witness for C2: a hot/dry/dark state with no overrides switches both
the light and the fan on with exactly one fan command, and a mild state
with the fan believed on and no light reading gets a fan-off decision
while the light belief stays put with no light command. -/
theorem C2_hysteresis_w :
    (auto_control true false 100 stOK).1.actuators.light = true
    ∧ (auto_control true false 100 stOK).1.actuators.fan = true
    ∧ (auto_control true false 100 stOK).2.filter (fun p => decide (p.1 = Actuator.fan)) =
        [(Actuator.fan, true)]
    ∧ (auto_control true false 100 stNoLight).1.actuators.fan = false
    ∧ (auto_control true false 100 stNoLight).1.actuators.light = true
    ∧ (auto_control true false 100 stNoLight).2.filter
        (fun p => decide (p.1 = Actuator.light)) = [] := by
  have h := C2_hysteresis 100 stOK 35 20 (by decide) (by decide) (by decide) (by decide)
  have h2 := C2_hysteresis 100 stNoLight 20 50 (by decide) (by decide) (by decide) (by decide)
  refine ⟨?_, ?_, ?_, ?_, ?_, ?_⟩
  · rw [(h.2.2.1 10 (by decide)).1]; decide
  · rw [h.1]; decide
  · rw [h.2.1]; decide
  · rw [h2.1]; decide
  · rw [(h2.2.2.2 (by decide)).1]; decide
  · exact (h2.2.2.2 (by decide)).2

/-- Claim C3: over every trace of timestamped sensor messages, the pump
activation times are pairwise separated by at least WATERING_COOLDOWN
(no matter how many low-moisture readings arrive in between), and any step
that publishes a pump-on command records exactly its trigger time in
last_watering — the cooldown is measured from activation, not from the
completion of watering. -/
theorem C3_cooldown (evs : List (Int × SensorMsg)) (stt : SystemState) :
    List.Pairwise (fun t1 t2 => t1 + WATERING_COOLDOWN ≤ t2) (activations stt evs)
    ∧ ∀ (now : Int) (msg : SensorMsg) (s : SystemState),
        (Actuator.pump, true) ∈ (sensorStep (now, msg) s).2 →
        (sensorStep (now, msg) s).1.last_watering = now := by
  constructor
  · exact acts_pairwise evs stt
  · intro now msg s hmem
    rcases step_lw (now, msg) s with ⟨_, hnot⟩ | ⟨_, h2⟩
    · exact absurd hmem hnot
    · exact h2

/-- Witness for C3: a concrete message that triggers watering at time 100
records 100 as the cooldown timestamp. -/
theorem C3_cooldown_w :
    (sensorStep (100, msgW) initState).1.last_watering = 100 :=
  (C3_cooldown [] initState).2 100 msgW initState (by decide)

/-- Claim C4: send_command on a connected client with a known actuator:
when the publish does not raise, it returns true and sets exactly that
actuator belief to the commanded value; when the publish raises a
transport error, it returns false and the state — in particular
ActuatorBelief — is completely unchanged. -/
theorem C4_dispatch (stt : SystemState) (a : Actuator) (b raises : Bool) :
    (raises = false →
      (send_command true raises stt a b).ok = true
      ∧ (send_command true raises stt a b).st =
          { stt with actuators := stt.actuators.set a b }
      ∧ (send_command true raises stt a b).st.actuators.get a = b)
    ∧ (raises = true →
      (send_command true raises stt a b).ok = false
      ∧ (send_command true raises stt a b).st = stt) := by
  cases raises <;> cases a <;> simp [send_command, ActMap.set, ActMap.get]

/-- Witness for C4 at a concrete call: fan-on succeeds and updates belief;
the raising variant fails and leaves the state untouched. -/
theorem C4_dispatch_w :
    (send_command true false initState Actuator.fan true).ok = true
    ∧ (send_command true false initState Actuator.fan true).st.actuators.get Actuator.fan = true
    ∧ (send_command true true initState Actuator.fan true).ok = false
    ∧ (send_command true true initState Actuator.fan true).st = initState :=
  ⟨((C4_dispatch initState Actuator.fan true false).1 rfl).1,
   ((C4_dispatch initState Actuator.fan true false).1 rfl).2.2,
   ((C4_dispatch initState Actuator.fan true true).2 rfl).1,
   ((C4_dispatch initState Actuator.fan true true).2 rfl).2⟩

/-- Claim C5: after every mode change — via a valid /mode request body or
a valid payload on the mode topic — the requested mode is installed and
every entry of OverrideFlags (pump, fan, light) is false, on both the 200
and the publish-failure (500) paths of the endpoint. -/
theorem C5_mode_clears :
    (∀ (conn : Bool) (s : String) (m : Mode) (stt : SystemState), parseMode s = some m →
      (mode_endpoint conn (some (some s)) stt).1.mode = m
      ∧ (mode_endpoint conn (some (some s)) stt).1.override.pump = false
      ∧ (mode_endpoint conn (some (some s)) stt).1.override.fan = false
      ∧ (mode_endpoint conn (some (some s)) stt).1.override.light = false)
    ∧ (∀ (payload : String) (m : Mode) (stt : SystemState), parseMode payload = some m →
      (on_mode_message payload stt).mode = m
      ∧ (on_mode_message payload stt).override.pump = false
      ∧ (on_mode_message payload stt).override.fan = false
      ∧ (on_mode_message payload stt).override.light = false) := by
  constructor
  · intro conn s m stt h
    cases conn <;> simp [mode_endpoint, h, clearedOverride]
  · intro payload m stt h
    simp [on_mode_message, h, clearedOverride]

/-- Witness for C5: from a state with all overrides raised, both mode-change
paths leave the flags cleared. -/
theorem C5_mode_clears_w :
    (mode_endpoint true (some (some (r"manual"))) stOvr).1.override.pump = false
    ∧ (on_mode_message (r"auto") stOvr).override.fan = false :=
  ⟨(C5_mode_clears.1 true (r"manual") Mode.manual stOvr (by decide)).2.1,
   (C5_mode_clears.2 (r"auto") Mode.auto stOvr (by decide)).2.2.1⟩

/-- Claim C6: a manual /control request received while the mode is auto is
rejected with 403 and the state is returned untouched with no command
published (no actuator field is attempted); when the guard passes, the
request succeeds with 200 and every requested actuator field is attempted:
each present field's command appears among the published commands. -/
theorem C6_auto_guard (req : ControlReq) (stt : SystemState) :
    (stt.mode = Mode.auto → control_endpoint true false req stt = (stt, 403, []))
    ∧ (stt.mode ≠ Mode.auto →
        (control_endpoint true false req stt).2.1 = 200
        ∧ (∀ b, req.pump = some b →
            (Actuator.pump, b) ∈ (control_endpoint true false req stt).2.2)
        ∧ (∀ b, req.fan = some b →
            (Actuator.fan, b) ∈ (control_endpoint true false req stt).2.2)
        ∧ (∀ b, req.light = some b →
            (Actuator.light, b) ∈ (control_endpoint true false req stt).2.2)) := by
  constructor
  · intro h
    unfold control_endpoint
    rw [if_pos h]
  · intro h
    unfold control_endpoint
    rw [if_neg h]
    obtain ⟨rp, rf, rl⟩ := req
    cases rp <;> cases rf <;> cases rl <;>
      simp [control_pump, control_fan, control_light, send_command]

/-- Witness for C6: a pump request is rejected wholesale in auto mode and
dispatched in hybrid mode. -/
theorem C6_auto_guard_w :
    control_endpoint true false { pump := some true, fan := none, light := none } initState =
      (initState, 403, [])
    ∧ (Actuator.pump, true) ∈
        (control_endpoint true false { pump := some true, fan := none, light := none }
          { initState with mode := Mode.hybrid }).2.2 :=
  ⟨(C6_auto_guard { pump := some true, fan := none, light := none } initState).1 rfl,
   ((C6_auto_guard { pump := some true, fan := none, light := none }
      { initState with mode := Mode.hybrid }).2 (by decide)).2.1 true rfl⟩

/-- Claim C7 (counterexample): the payload [["temp", 25]] is well-formed
JSON but not a JSON object, yet the sensor-topic handler is not a no-op on
it: dict.update accepts the key/value pair array, so SensorSnapshot's temp
entry becomes 25 (it was null), the node is marked live and auto_control
runs — refuting the claim that every non-object payload is dropped with no
state mutation and no policy evaluation. -/
theorem C7_nonobject_cex :
    (sensorIngest initSensorDict false (some pairArrayPayload) 100).2.2 = true
    ∧ (sensorIngest initSensorDict false (some pairArrayPayload) 100).2.1 = true
    ∧ getNum (sensorIngest initSensorDict false (some pairArrayPayload) 100).1
        (JKey.str (r"temp")) = some 25
    ∧ getNum initSensorDict (JKey.str (r"temp")) = none := by decide

/-- Claim C7 (amended): a sensor-topic payload that is not well-formed
JSON at all (json.loads raises), or parses to a non-iterable scalar
(number, boolean or null, on which dict.update raises at once), is dropped
with no state mutation, no policy evaluation and — the model being a total
function, mirroring the handler's blanket except clause — no propagated
failure.  Well-formed non-object payloads are not in general dropped (see
the counterexample). -/
theorem C7_amended_drop (d : List (JKey × JVal)) (esp : Bool) (now n : Int) (b : Bool) :
    sensorIngest d esp none now = (d, esp, false)
    ∧ sensorIngest d esp (some (JVal.num n)) now = (d, esp, false)
    ∧ sensorIngest d esp (some (JVal.bool b)) now = (d, esp, false)
    ∧ sensorIngest d esp (some JVal.null) now = (d, esp, false) :=
  ⟨rfl, rfl, rfl, rfl⟩

/-- Claim C8 (counterexample): a nonempty body whose bytes fail to decode
makes detect_endpoint answer 200 with the error dict — not the claimed
500 — because detect_objects returns an error dictionary rather than
raising, and the handler then takes the ordinary jsonify path. -/
theorem C8_decode_cex :
    detect_endpoint true (fun _ => none) 0 [7] initState = (initState, 200, [])
    ∧ (200 : Nat) ≠ 500 := ⟨by decide, by decide⟩

/-- Claim C8 (amended): an empty request body is answered with 400, and a
nonempty body that fails to decode is answered with 200 carrying the error
dict (the 500 branch is reserved for raised exceptions, which the decode
path does not take); in both failure cases no alert is emitted and the
stored DetectionResult is untouched. -/
theorem C8_failures (conn : Bool) (decode : List Nat → Option Unit) (now : Int)
    (image_data : List Nat) (stt : SystemState) :
    (image_data = [] → detect_endpoint conn decode now image_data stt = (stt, 400, []))
    ∧ (image_data ≠ [] → decode image_data = none →
        detect_endpoint conn decode now image_data stt = (stt, 200, [])) := by
  constructor
  · intro h
    subst h
    rfl
  · intro h hd
    have he : image_data.isEmpty = false := by
      cases image_data
      · exact absurd rfl h
      · rfl
    simp [detect_endpoint, detect_objects, processDetection, he, hd]

/-- Witness for C8: concrete empty-body and undecodable-body calls. -/
theorem C8_failures_w :
    detect_endpoint true (fun _ => some ()) 0 [] initState = (initState, 400, [])
    ∧ detect_endpoint true (fun _ => none) 5 [1, 2] initState = (initState, 200, []) :=
  ⟨(C8_failures true (fun _ => some ()) 0 [] initState).1 rfl,
   (C8_failures true (fun _ => none) 5 [1, 2] initState).2 (by decide) rfl⟩

/-- Claim C9: for every DetectionResult processed with the mqtt client
present, exactly one alert of type pest is emitted iff pestDetected, one
of type disease iff diseaseDetected, one of type harvest iff ripeCount is
positive, and no other alerts: the total count is the sum of the three. -/
theorem C9_alerts (conn : Bool) (hconn : conn = true) (now : Int) (stt : SystemState)
    (p d : Bool) (ripe : Nat) (conf ts : Int) :
    ((processDetection conn now stt (DetectOut.found p d ripe conf ts)).2.filter
        (fun a => decide (a.alert_type = AlertType.pest))).length = (if p then 1 else 0)
    ∧ ((processDetection conn now stt (DetectOut.found p d ripe conf ts)).2.filter
        (fun a => decide (a.alert_type = AlertType.disease))).length = (if d then 1 else 0)
    ∧ ((processDetection conn now stt (DetectOut.found p d ripe conf ts)).2.filter
        (fun a => decide (a.alert_type = AlertType.harvest))).length = (if 0 < ripe then 1 else 0)
    ∧ (processDetection conn now stt (DetectOut.found p d ripe conf ts)).2.length =
        (if p then 1 else 0) + (if d then 1 else 0) + (if 0 < ripe then 1 else 0) := by
  subst hconn
  by_cases hr : 0 < ripe <;> cases p <;> cases d <;>
    simp [processDetection, send_alert, hr]

/-- Witness for C9, scenario E: pest true, disease false, ripeCount 2 emit
exactly two alerts, a pest one followed by a harvest one. -/
theorem C9_alerts_w :
    (processDetection true 0 initState (DetectOut.found true false 2 0 0)).2.map
        Alert.alert_type = [AlertType.pest, AlertType.harvest]
    ∧ (processDetection true 0 initState (DetectOut.found true false 2 0 0)).2.length = 2 := by
  have h := C9_alerts true rfl 0 initState true false 2 0 0
  refine ⟨by decide, ?_⟩
  rw [h.2.2.2]
  decide

/-- Witness for C10: the concrete hot/dry state waters for one cycle inside
a single evaluation. -/
theorem C10_sync_w :
    (auto_control true false 100 stOK).2.filter (fun p => decide (p.1 = Actuator.pump)) =
      [(Actuator.pump, true), (Actuator.pump, false)]
    ∧ (auto_control true false 100 stOK).1.actuators.pump = false :=
  C10_sync 100 stOK 35 20 (by decide) (by decide) (by decide) (by decide) (by decide)
    (by decide) (by decide)
